import Mathlib

/-!
Shallow embedding of `src/main.py` of the beaufort-cast repository: a
Chromecast photo-casting daemon.  Pure fragments of the Python code are
translated into executable Lean definitions; wall-clock times are modelled
as rationals (seconds), Python floats as rationals, and the filesystem as
an inductive tree carrying the content type that `mimetypes.guess_type`
would report for each file name.  Randomness is passed explicitly: a draw
`u` in `[0,1)` for `random.choices` and natural-number selectors for
`random.choice` (an arbitrary index taken modulo the sequence length, so
every element is reachable).  Python exceptions raised by the standard
library (`IndexError` from indexing an empty list, `ValueError` from
`random.choices` on a non-positive total weight) are modelled with
`Except`.
-/

/-- Python exceptions that the modelled code paths can raise. -/
inductive PyError where
  | valueError
  | indexError
deriving DecidableEq, Repr

instance {ε α : Type} [DecidableEq ε] [DecidableEq α] : DecidableEq (Except ε α) := fun a b =>
  match a, b with
  | .error e, .error e' =>
    if h : e = e' then .isTrue (by rw [h]) else .isFalse (by simp [h])
  | .error _, .ok _ => .isFalse (by simp)
  | .ok _, .error _ => .isFalse (by simp)
  | .ok v, .ok v' =>
    if h : v = v' then .isTrue (by rw [h]) else .isFalse (by simp [h])

/-- A usable photo: its path relative to the photo root, and its content
type, exactly the `tuple[str, str]` values stored by `PhotoIndex`. -/
structure Photo where
  path : String
  contentType : String
deriving DecidableEq, Repr

/-- Boolean test that the list `n` is an initial segment of the list `h`. -/
def startsWithB {α} [DecidableEq α] : List α → List α → Bool
  | [], _ => true
  | _ :: _, [] => false
  | a :: as, b :: bs => a = b && startsWithB as bs

/-- Boolean test that `n` occurs contiguously inside `h`: Python's
substring operator for lists of characters. -/
def containsRun {α} [DecidableEq α] (n : List α) : List α → Bool
  | [] => startsWithB n []
  | b :: bs => startsWithB n (b :: bs) || containsRun n bs

/-- Python's `needle in hay` on strings. -/
def pyIn (needle hay : String) : Bool :=
  containsRun needle.data hay.data

/-- Python's `str.lower`, character by character (the directory names and
blacklist entries handled by the code are ASCII, where this coincides with
Python's case folding). -/
def lowerStr (s : String) : String :=
  ⟨s.data.map Char.toLower⟩

/-- Embeds `is_not_blacklisted` (main.py lines 77-80): every blacklist
entry, lowercased, fails to occur as a substring of the lowercased name. -/
def is_not_blacklisted (blacklist : List String) (dirName : String) : Bool :=
  blacklist.all fun banned => !(pyIn (lowerStr banned) (lowerStr dirName))

/-- The Cast-supported raster image content types accepted by
`collect_photos_recursively` (main.py lines 89-96). -/
def castMediaTypes : List String :=
  ["image/apng", "image/bmp", "image/gif", "image/jpeg", "image/png", "image/webp"]

/-- A filesystem entry: a file with the content type `mimetypes.guess_type`
reports for its name (`none` when the type cannot be determined), or a
directory with its children. -/
inductive FsEntry where
  | file (name : String) (contentType : Option String)
  | dir (name : String) (children : List FsEntry)

/-- Name of a filesystem entry. -/
def FsEntry.name : FsEntry → String
  | .file n _ => n
  | .dir n _ => n

/-- Whether a filesystem entry is a directory. -/
def FsEntry.isDir : FsEntry → Bool
  | .file _ _ => false
  | .dir _ _ => true

/-- Children of a filesystem entry (empty for files). -/
def FsEntry.childrenOf : FsEntry → List FsEntry
  | .file _ _ => []
  | .dir _ children => children

mutual

/-- Embeds `collect_photos_recursively` (main.py lines 83-111) applied to a
single entry of the scanned directory: a file contributes itself when its
guessed content type is a supported image type; a subdirectory is recursed
into when its name is not blacklisted.  `base` accumulates the path of the
enclosing directory relative to the photo root (Python works with absolute
paths and applies `os.path.relpath` afterwards; we build the relative path
directly, which is the same string). -/
def collectPhotos (blacklist : List String) (base : String) : FsEntry → List Photo
  | .file n ct =>
    match ct with
    | some t => if castMediaTypes.contains t then [⟨base ++ n, t⟩] else []
    | none => []
  | .dir n children =>
    if is_not_blacklisted blacklist n then
      collectPhotosList blacklist (base ++ n ++ "/") children
    else []

/-- The scan of `collect_photos_recursively` over a list of entries. -/
def collectPhotosList (blacklist : List String) (base : String) : List FsEntry → List Photo
  | [] => []
  | e :: es => collectPhotos blacklist base e ++ collectPhotosList blacklist base es

end

/-- Python's `str.isnumeric` restricted to ASCII digits: nonempty and all
characters numeric.  Year directory names are ASCII decimal years, for
which this coincides with `isnumeric`. -/
def isNumericStr (s : String) : Bool :=
  !s.isEmpty && s.data.all Char.isDigit

/-- Python's `int(...)` on a decimal-digit string such as the validated
year directory names. -/
def strToNat (s : String) : ℕ :=
  s.data.foldl (fun acc c => 10 * acc + (c.toNat - 48)) 0

/-- Lexicographic comparison of character lists by code point, Python's
string ordering. -/
def listLeChars : List Char → List Char → Bool
  | [], _ => true
  | _ :: _, [] => false
  | a :: as, b :: bs =>
    if a.toNat < b.toNat then true
    else if b.toNat < a.toNat then false
    else listLeChars as bs

/-- Python's `<=` on strings: lexicographic by code point. -/
def strLe (a b : String) : Bool :=
  listLeChars a.data b.data

/-- The ordering key of `year_entries.sort(key=lambda x: x.name)`:
lexicographic comparison of entry names. -/
def nameLe (a b : FsEntry) : Prop := strLe a.name b.name = true

instance : DecidableRel nameLe := fun a b =>
  inferInstanceAs (Decidable (strLe a.name b.name = true))

instance : IsTotal FsEntry nameLe := by
  constructor
  intro x y
  show listLeChars x.name.data y.name.data = true ∨ listLeChars y.name.data x.name.data = true
  generalize x.name.data = as
  generalize y.name.data = bs
  induction as generalizing bs with
  | nil => left; rfl
  | cons a as ih =>
    cases bs with
    | nil => right; rfl
    | cons b bs =>
      rcases Nat.lt_trichotomy a.toNat b.toNat with h | h | h
      · left; simp [listLeChars, h]
      · cases ih bs with
        | inl hl => left; simp [listLeChars, h, hl]
        | inr hr => right; simp [listLeChars, h.symm, hr]
      · right
        simp only [listLeChars]
        rw [if_pos h]

instance : IsTrans FsEntry nameLe := by
  constructor
  intro x y z h1 h2
  show listLeChars x.name.data z.name.data = true
  revert h1 h2
  show listLeChars x.name.data y.name.data = true →
    listLeChars y.name.data z.name.data = true →
    listLeChars x.name.data z.name.data = true
  generalize x.name.data = as
  generalize y.name.data = bs
  generalize z.name.data = cs
  induction as generalizing bs cs with
  | nil => intro h1 h2; rfl
  | cons a as ih =>
    intro h1 h2
    cases bs with
    | nil => simp [listLeChars] at h1
    | cons b bs =>
      cases cs with
      | nil => simp [listLeChars] at h2
      | cons c cs =>
        simp only [listLeChars] at h1 h2 ⊢
        rcases Nat.lt_trichotomy a.toNat b.toNat with hab | hab | hab
        · rcases Nat.lt_trichotomy b.toNat c.toNat with hbc | hbc | hbc
          · rw [if_pos (Nat.lt_trans hab hbc)]
          · rw [if_pos (hbc ▸ hab)]
          · rw [if_neg (by omega), if_pos hbc] at h2
            simp at h2
        · rcases Nat.lt_trichotomy b.toNat c.toNat with hbc | hbc | hbc
          · rw [if_pos (hab ▸ hbc)]
          · rw [if_neg (by omega), if_neg (by omega)] at h1 h2
            rw [if_neg (by omega), if_neg (by omega)]
            exact ih bs cs h1 h2
          · rw [if_neg (by omega), if_pos hbc] at h2
            simp at h2
        · rw [if_neg (by omega), if_pos hab] at h1
          simp at h1

/-- Embeds the year-entry collection of `PhotoIndex.__init__` (main.py
lines 128-147): keep exactly the immediate subdirectories of the photo
root whose name is numeric and not blacklisted, then sort them by name. -/
def yearEntries (blacklist : List String) (root : List FsEntry) : List FsEntry :=
  List.insertionSort nameLe
    (root.filter fun e => e.isDir && isNumericStr e.name && is_not_blacklisted blacklist e.name)

/-- Embeds the per-year body of `PhotoIndex.__init__` (main.py lines
150-178): the non-blacklisted subdirectories of a year directory, sorted
by name. -/
def subdirEntries (blacklist : List String) (y : FsEntry) : List FsEntry :=
  List.insertionSort nameLe
    (y.childrenOf.filter fun e => e.isDir && is_not_blacklisted blacklist e.name)

/-- Embeds the bucket built for one year directory (main.py lines 150-178):
collect the photos of each sorted subdirectory and keep only the nonempty
photo lists (`if len(photos) > 0`). -/
def buildBucket (blacklist : List String) (y : FsEntry) : List (List Photo) :=
  ((subdirEntries blacklist y).map fun s =>
    collectPhotos blacklist (y.name ++ "/") s).filter fun l => !l.isEmpty

/-- Python's `int(round(q * w))` for a rational `q` and integer weight `w`,
as at main.py line 193 (round half to even, as Python rounds floats).  The
product is the exact fraction `(q.num * w) / q.den`; writing it as
`f + r/d` with `f` the floor and `0 ≤ r < d`: round down when `r/d < 1/2`
(that is, `2r < d`), up when `r/d > 1/2`, and to the even neighbour on a
tie. -/
def pyRoundMul (q : ℚ) (w : ℤ) : ℤ :=
  let n : ℤ := q.num * w
  let d : ℤ := (q.den : ℤ)
  let f : ℤ := Int.fdiv n d
  let r : ℤ := n - f * d
  if 2 * r < d then f
  else if d < 2 * r then f + 1
  else if f % 2 = 0 then f else f + 1

/-- Embeds `year_progress` (main.py lines 67-74): seconds elapsed in the
current year divided by the total seconds of the year. -/
def year_progress (secondsElapsed totalSecondsInYear : ℚ) : ℚ :=
  secondsElapsed / totalSecondsInYear

/-- Embeds `self.year_weights = [2**i for i in range(len(year_photos))]`
(main.py line 185). -/
def initialYearWeights (n : ℕ) : List ℤ :=
  (List.range n).map fun i => 2 ^ i

/-- Embeds the year-weight computation of `PhotoIndex.__init__` (main.py
lines 184-193): weight `2^i` for every year, and when the latest year is
the current calendar year the last weight is replaced by
`int(round(year_progress() * 2^(n-1)))`. -/
def year_weights_final (n : ℕ) (latestIsCurrent : Bool) (fraction : ℚ) : List ℤ :=
  if latestIsCurrent then
    (initialYearWeights n).set (n - 1) (pyRoundMul fraction (2 ^ (n - 1)))
  else initialYearWeights n

/-- The state of a built `PhotoIndex` (main.py lines 114-123): the
year/subdirectory/photo nesting, the per-year weights (integers at
runtime: `2**i` and the rounded current-year weight), and the build
time in seconds. -/
structure PhotoIndexState where
  year_photos : List (List (List Photo))
  year_weights : List ℤ
  time : ℚ
deriving DecidableEq, Repr

/-- Embeds `PhotoIndex.__init__` (main.py lines 125-195) as a function of
the photo root listing, the blacklist, the current calendar year, the
year-progress fraction at build time, and the build time `now`.  When no
year directory survives the filter, `year_entries[-1]` at line 190 raises
an `IndexError` and no index object is produced. -/
def buildIndex (blacklist : List String) (root : List FsEntry) (currentYear : ℕ)
    (fraction now : ℚ) : Except PyError PhotoIndexState :=
  let ys := yearEntries blacklist root
  let yps := ys.map (buildBucket blacklist)
  match ys.getLast? with
  | none => .error .indexError
  | some latest =>
      .ok ⟨yps,
           year_weights_final yps.length (strToNat latest.name == currentYear) fraction,
           now⟩

/-- Randomness consumed by one call to `PhotoIndex.get_random_photo`: the
uniform draw `u ∈ [0,1)` of `random.choices`, and selector indices for the
two `random.choice` calls. -/
structure RandPick where
  u : ℚ
  subIdx : ℕ
  photoIdx : ℕ
deriving DecidableEq, Repr

/-- Embeds `random.choice(seq)`: `IndexError` on an empty sequence,
otherwise the element at the selector index modulo the length. -/
def pyChoice {α} : List α → ℕ → Except PyError α
  | [], _ => .error .indexError
  | a :: as, i => .ok ((a :: as).getD (i % (a :: as).length) a)

/-- The comparison `draw < cum` made by `bisect.bisect` inside
`random.choices`, where the draw is `u * total` with `u ∈ [0,1)`: the
positive denominator of `u` is cleared, so
`u * total < c  ↔  u.num * total < c * u.den`. -/
def drawLtCum (u : ℚ) (total c : ℤ) : Bool :=
  u.num * total < c * (u.den : ℤ)

/-- The search of `bisect.bisect(cum_weights, u*total, 0, n-1)` inside
`random.choices`: the first position whose cumulative weight strictly
exceeds the draw, capped at `n-1`.  The accumulator `c` is the cumulative
weight of the already-inspected prefix. -/
def rouletteIdxAux (u : ℚ) (total : ℤ) (c : ℤ) : List ℤ → ℕ
  | [] => 0
  | [_] => 0
  | w :: w' :: ws =>
    if drawLtCum u total (c + w) then 0
    else rouletteIdxAux u total (c + w) (w' :: ws) + 1

/-- The bucket index drawn by
`random.choices(self.year_photos, weights=self.year_weights, k=1)`. -/
def rouletteIdx (ws : List ℤ) (u : ℚ) : ℕ :=
  rouletteIdxAux u ws.sum 0 ws

/-- Embeds `PhotoIndex.get_random_photo` (main.py lines 197-200), following
CPython's `random.choices`: a length mismatch between weights and
population raises `ValueError`; an empty weight list raises `IndexError`
(`cum_weights[-1]` on an empty list); a non-positive total weight raises
`ValueError`; otherwise one weighted draw picks a year, and two uniform
`random.choice` calls pick a subdirectory and a photo. -/
def get_random_photo (idx : PhotoIndexState) (r : RandPick) : Except PyError Photo :=
  if idx.year_weights.length ≠ idx.year_photos.length then .error .valueError
  else if idx.year_weights.isEmpty then .error .indexError
  else if idx.year_weights.sum ≤ 0 then .error .valueError
  else
    match idx.year_photos[rouletteIdx idx.year_weights r.u]? with
    | none => .error .indexError
    | some year => (pyChoice year r.subIdx).bind fun subdir => pyChoice subdir r.photoIdx

/-- Embeds `PhotoIndex.is_outdated` (main.py lines 202-203): the index age
in seconds strictly exceeds the configured interval. -/
def is_outdated (ttl builtTime now : ℚ) : Bool :=
  now - builtTime > ttl

/-- The hardcoded `NICOLAS_CAGE` URL list (main.py lines 22-64), the
population of the `random.choice` that the casting loop actually plays. -/
def nicolasCage : List String :=
  ["https://images.wired.it/gallery/131607/Big/37493d96-2b60-4164-b730-cc0717c36f18.jpeg",
   "https://i0.wp.com/www.cinezapping.com/wp-content/uploads/2011/01/nicolas-cage_06.jpg",
   "https://3.bp.blogspot.com/-JQqV60o8x0A/Wzexrjx2UKI/AAAAAAAABE4/EwrkZFh0wQ4-LXassGyOZsiWFDgEY9brACLcBGAs/w1200-h630-p-k-no-nu/Nic-Cage.jpg",
   "https://live.staticflickr.com/3242/5818160547_9d1bb744d4.jpg",
   "https://live.staticflickr.com/1461/25524427682_c3757f7989_z.jpg",
   "https://c4.wallpaperflare.com/wallpaper/400/158/569/nicolas-cage-actor-man-face-wallpaper-preview.jpg",
   "https://4.bp.blogspot.com/_N91xwP-lKvw/TFjSKU-ETZI/AAAAAAAABlc/-mAlrcPNZeI/s400/nickcagevampkiss.jpg",
   "https://i1.wp.com/fortworthreport.org/wp-content/uploads/2021/07/PIG001.jpeg",
   "https://upload.wikimedia.org/wikipedia/commons/c/c0/Nicolas_Cage_Deauville_2013.jpg",
   "https://2.bp.blogspot.com/-FG5qhZYlA9c/UNcj6FBBEgI/AAAAAAAACGE/LYOKb7XmUkU/s1600/Nicolas-Cage.jpg",
   "https://www.abruzzo24ore.tv/img/3bcda8f2aed2c8f1fdea1c020dadcf39/w/1024/h/576/scale/160579.jpg",
   "https://3.bp.blogspot.com/--eU2d6DyULI/UOlsIric3dI/AAAAAAAALHE/8jxR5F7erbc/s1600/Nicolas-Cage-nicolas-cage-26969948-1989-1300.jpg",
   "https://live.staticflickr.com/1/131983774_7eb586770f_b.jpg",
   "https://images.uncyc.org/pt/1/11/Nicolascage_(14).jpg",
   "https://1.bp.blogspot.com/-uFkL5_XciyU/UOlsvnMBx4I/AAAAAAAALHU/vnRj0ehmGYg/s1600/tumblr_l31p8iOeC61qa06e2o1_500.jpg",
   "https://1.bp.blogspot.com/-nXhiQU_2DtA/Uaxya_RUJRI/AAAAAAAAGaU/M6fNyE12zeM/s1600/Stringy+Mullet.jpg",
   "https://www.internerdz.com.br/wp-content/uploads/2019/09/Nicolas-Cage-backgrounds-ultra-hd.png",
   "https://c4.wallpaperflare.com/wallpaper/46/357/191/movie-face-off-nicolas-cage-wallpaper-thumb.jpg",
   "https://i0.wp.com/www.cinezapping.com/wp-content/uploads/2010/08/Nicolas-Cage-ne-Lapprendista-stregone.jpg",
   "https://www.talkingdrugs.org/sites/default/files/images/cage-wicker-man.jpg",
   "https://c4.wallpaperflare.com/wallpaper/325/762/565/nicolas-cage-wallpaper-preview.jpg",
   "https://multiglom.files.wordpress.com/2015/01/wildcage01.jpg",
   "https://4.bp.blogspot.com/_N91xwP-lKvw/TFjR4YQU1tI/AAAAAAAABk8/0VBlXRL3VBk/s1600/the+rock.jpg",
   "https://i0.wp.com/www.cinezapping.com/wp-content/uploads/2010/08/Nicolas-Cage-in-Ghost-Rider.jpg",
   "https://cdn.pastemagazine.com/www/system/images/photo_albums/nicolas-cage/large/02-cage-valleygirl.jpg",
   "https://ll-media.tmz.com/2016/12/08/fast-times-memba-05-480w.jpg",
   "https://external-preview.redd.it/ACjjH16xtR9P1GBvLx-ykZdZ1W5RA8CSDInnSbBgwWk.jpg?auto=webp&s=ca4bd365e5dfebd9c8c3b7d7be0dc782702862e1",
   "https://www.slashfilm.com/img/gallery/nicolas-cage-couldnt-land-a-david-lynch-cameo-for-the-unbearable-weight-of-massive-talent/the-nicolas-cagedavid-lynch-reunion-we-deserved-1650027163.jpg",
   "https://i1.wp.com/film-book.com/wp-content/uploads/2017/04/nicolas-cage-windtalkers-01-600x350.jpg",
   "https://multiglom.files.wordpress.com/2015/01/the-rock-1996.jpg",
   "https://musingsfromus.com/wp-content/uploads/2012/09/Gone-In-60-Seconds-2000-ScreenShot-088.jpg",
   "https://assets.acasatv.ro/assets/acasatv/2010/05/07/image_galleries/2130/vampirii-fac-valva-la-hollywood-galerie-foto_12.jpg",
   "https://multiglom.files.wordpress.com/2015/01/birdy.png",
   "https://musingsfromus.com/wp-content/uploads/2012/07/National-Treasure-2004-ScreenShot-121.jpg",
   "https://3.bp.blogspot.com/-rng145WCKPQ/T6mi8M8Ho5I/AAAAAAAAAEc/CaZfH8dVLGA/s1600/WeatherMan06.jpg",
   "https://de.web.img3.acsta.net/r_1280_720/medias/nmedia/18/35/51/53/18458294.jpg",
   "https://www.episodi.fi/wp-content/uploads/nicolas-cage-world-trade-center.jpg",
   "https://1.bp.blogspot.com/-WZRyOwsfE-8/U1bVZbeMK9I/AAAAAAAAAMY/JEe1Ie4G5fE/s1600/nicolas-cage-fu-manchu-grindhouse.jpg",
   "https://multiglom.files.wordpress.com/2015/01/badlieu02.jpg",
   "https://2.bp.blogspot.com/-1LyVzMxNm7Q/W83_4TYmZKI/AAAAAAAAAIY/sjkzpcFyoFYVJ_ousNs2u5AGETVXhGLdwCLcBGAs/s1600/Nic%252BCage.png",
   "https://www.yam-mag.com/wp-content/uploads/2012/05/nicholas-cage-kick-ass.jpg"]

/-- Embeds `path_to_url` (main.py lines 235-236): the URL of a photo served
by the local server, with the per-process key embedded as a query
parameter. -/
def path_to_url (localIp : String) (listeningPort : ℕ) (key p : String) : String :=
  "http://" ++ localIp ++ ":" ++ toString listeningPort ++ "/" ++ p ++ "?key=" ++ key

/-- Embeds the request handler `send_photo` of `run_photo_server` (main.py
lines 209-214): when the query key equals the per-process key the file at
the requested path is served from the photo root (modelled as the served
path, delegated to bottle's `static_file`), otherwise the request is
aborted with HTTP status 401. -/
def send_photo (key queryKey p : String) : Except ℕ String :=
  if queryKey = key then .ok p else .error 401

/-- Device status as read by the control loop: the `display_name` of the
polled Chromecast status, together with the URL of the content it is
currently showing (present in the SDK status object; the code never reads
it). -/
structure CastStatus where
  display_name : String
  contentUrl : Option String
deriving DecidableEq, Repr

/-- Classification of a polled status. -/
inductive Classified where
  | eligible
  | busy
  | unknown
deriving DecidableEq, Repr

/-- Embeds the status classification of `main` (main.py lines 253-281): a
missing status is unknown (warning, re-poll); a status whose
`display_name` is the Backdrop ambient identity or the Default Media
Receiver identity starts or resumes casting; anything else is busy
(debug log, no action). -/
def classifyStatus : Option CastStatus → Classified
  | none => .unknown
  | some st =>
    if st.display_name = "Backdrop" || st.display_name = "Default Media Receiver" then
      .eligible
    else .busy

/-- Modelled from the spec: the Device Session Controller state machine of
section 4.4, in which the generic content-display identity is eligible
(Resumable) only when the shown content URL matches this system serving
origin; the code under `src/` performs no such origin check, so this
definition exists only to be compared with `classifyStatus`. -/
def classifyStatusSpec (servingOrigin : String) : Option CastStatus → Classified
  | none => .unknown
  | some st =>
    if st.display_name = "Backdrop" then .eligible
    else if st.display_name = "Default Media Receiver" then
      match st.contentUrl with
      | some u => if startsWithB servingOrigin.data u.data then .eligible else .busy
      | none => .busy
    else .busy

/-- Outcome of the device discovery block of `main` (main.py lines
238-245): zero or several Chromecasts matching the configured name
terminate the process with `sys.exit(1)`; exactly one match proceeds. -/
inductive DiscoverResult (α : Type) where
  | exited (code : ℕ)
  | proceed (cast : α)

/-- Embeds device discovery (main.py lines 238-245). -/
def discoverOutcome {α} (casts : List α) : DiscoverResult α :=
  match casts with
  | [] => .exited 1
  | [c] => .proceed c
  | _ :: _ :: _ => .exited 1

/-- Action taken by one outer poll iteration (main.py lines 253-281). -/
inductive OuterAction where
  | startCasting
  | notIdle
  | statusUnknown
deriving DecidableEq, Repr

/-- Embeds the outer poll dispatch of `main` (main.py lines 253-281): an
eligible status enters the casting loop, a busy status logs and sleeps,
a missing status warns and sleeps; no branch exits the process. -/
def outerPollAction (st : Option CastStatus) : OuterAction :=
  match classifyStatus st with
  | .eligible => .startCasting
  | .busy => .notIdle
  | .unknown => .statusUnknown

/-- The media command issued to the device. -/
structure CastCommand where
  url : String
  contentType : String
deriving DecidableEq, Repr

/-- Embeds the play command of one casting-loop iteration (main.py lines
269-271): a uniformly chosen element of `NICOLAS_CAGE`, with content type
`image/png` when the URL contains `.png` and `image/jpeg` otherwise. -/
def castIterPlay (nic : ℕ) : CastCommand :=
  let url := nicolasCage.getD (nic % nicolasCage.length) ""
  ⟨url, if pyIn ".png" url then "image/png" else "image/jpeg"⟩

/-- Embeds one iteration of the inner casting loop of `main` (main.py lines
265-273): rebuild the index when it is outdated (the rebuilt index is
passed in, since building reads the filesystem), then command the device
to play a random `NICOLAS_CAGE` URL.  Returns the index the loop continues
with and the command issued via `mc.play_media`. -/
def castIter (ttl now : ℚ) (idx rebuilt : PhotoIndexState) (nic : ℕ) :
    PhotoIndexState × CastCommand :=
  (if is_outdated ttl idx.time now then rebuilt else idx, castIterPlay nic)

/-! ### Concrete fixtures used by the claim theorems -/

/-- A photo in the 2020 bucket. -/
def photoA : Photo := ⟨"2020/a/p.jpg", "image/jpeg"⟩

/-- A photo root whose latest year directory (2021) contains no photos. -/
def rootWithEmptyLatest : List FsEntry :=
  [.dir "2020" [.dir "a" [.file "p.jpg" (some "image/jpeg")]], .dir "2021" []]

/-- The index built from `rootWithEmptyLatest` in calendar year 2025. -/
def idxWithEmptyLatest : PhotoIndexState := ⟨[[[photoA]], []], [1, 2], 0⟩

/-- A photo in the 2021 bucket. -/
def photoC : Photo := ⟨"2021/t/c.jpg", "image/jpeg"⟩

/-- A photo root whose oldest year directory (2020) contains no photos. -/
def rootEmptyFirst : List FsEntry :=
  [.dir "2020" [], .dir "2021" [.dir "t" [.file "c.jpg" (some "image/jpeg")]]]

/-- The index built from `rootEmptyFirst` in calendar year 2025: exactly one
non-empty bucket holding exactly one asset, preceded by an empty bucket. -/
def idxEmptyFirst : PhotoIndexState := ⟨[[], [[photoC]]], [1, 2], 0⟩

/-- A single-photo index used to exhibit the casting loop ignoring the index. -/
def photoD : Photo := ⟨"2022/d/x.jpg", "image/jpeg"⟩

/-- Index whose only photo is `photoD`. -/
def idxD : PhotoIndexState := ⟨[[[photoD]]], [1], 0⟩

/-- A different single-photo index. -/
def photoE : Photo := ⟨"2018/e/y.jpg", "image/jpeg"⟩

/-- Index whose only photo is `photoE`. -/
def idxE : PhotoIndexState := ⟨[[[photoE]]], [1], 0⟩

/-- An index with an empty bucket next to a one-photo bucket, distinct from
the other fixtures. -/
def photoB : Photo := ⟨"2019/b/q.png", "image/png"⟩

/-- Index pairing an empty bucket with the one-photo bucket of `photoB`. -/
def idxB : PhotoIndexState := ⟨[[], [[photoB]]], [1, 2], 0⟩

/-- A Default Media Receiver status showing content from a foreign origin. -/
def foreignStatus : CastStatus :=
  ⟨"Default Media Receiver", some "https://evil.example/a.jpg"⟩

/-- The rational 3/4 given by its explicit reduced fraction, so that the
kernel can evaluate `num` and `den` directly. -/
def q34 : ℚ := ⟨3, 4, by decide, by decide⟩

/-- The rational 3/10 given by its explicit reduced fraction. -/
def q310 : ℚ := ⟨3, 10, by decide, by decide⟩

/-! ### Helper lemmas -/

/-- Any list is an initial segment of itself. -/
theorem startsWithB_self {α} [DecidableEq α] (l : List α) : startsWithB l l = true := by
  induction l with
  | nil => rfl
  | cons a as ih => simp [startsWithB, ih]

/-- A list occurs contiguously inside anything that ends with it. -/
theorem containsRun_append_self {α} [DecidableEq α] (pre n : List α) :
    containsRun n (pre ++ n) = true := by
  induction pre with
  | nil =>
    cases n with
    | nil => rfl
    | cons a as => simp [containsRun, startsWithB_self]
  | cons b bs ih => simp [containsRun, ih]

/-- The weight list always has as many entries as there are year buckets. -/
theorem length_year_weights_final (n : ℕ) (cur : Bool) (fr : ℚ) :
    (year_weights_final n cur fr).length = n := by
  cases cur <;> simp [year_weights_final, initialYearWeights]

/-! ### Claim theorems -/

/-- C1: the code commands the device to play a hardcoded `NICOLAS_CAGE`
URL each casting iteration.  The command is identical for two indexes
holding different single photos, it is the first hardcoded URL, the
sampler would have returned the indexed photo, and the commanded URL is
not the resolver URL of that photo: the displayed item is not the sampled
indexed asset, contradicting the claim (and the dead `PhotoIndex` /
`path_to_url` machinery the code itself maintains). -/
theorem c1_cast_plays_hardcoded_url :
    (castIter 100 5 idxD idxD 0).2 = (castIter 100 5 idxE idxE 0).2 ∧
    (castIter 100 5 idxD idxD 0).2.url =
      "https://images.wired.it/gallery/131607/Big/37493d96-2b60-4164-b730-cc0717c36f18.jpeg" ∧
    get_random_photo idxD ⟨0, 0, 0⟩ = .ok photoD ∧
    (castIter 100 5 idxD idxD 0).2.url ≠ path_to_url "192.168.1.10" 8080 "tok0" photoD.path :=
  ⟨rfl, by decide, by decide, by decide⟩

/-- C4 counterexample: when device discovery returns no matching
Chromecast (the device being unreachable), `main` calls `sys.exit(1)`:
the process exits instead of retrying, so a device error during discovery
is not retried indefinitely and does cause the process to exit. -/
theorem c4_counterexample : discoverOutcome ([] : List ℕ) = DiscoverResult.exited 1 := rfl

/-- C4 amended: device discovery is attempted once at startup and the
process exits with status 1 unless exactly one matching Chromecast is
found; an unknown status during polling is classified statusUnknown
(warning logged, re-polled after the fixed check interval); there is no
retry-wrapper combinator in the code. -/
theorem c4_discovery_exits {α : Type} (casts : List α) (c : α) :
    (discoverOutcome casts = DiscoverResult.exited 1 ↔ casts.length ≠ 1) ∧
    (discoverOutcome casts = DiscoverResult.proceed c ↔ casts = [c]) ∧
    outerPollAction none = OuterAction.statusUnknown := by
  refine ⟨?_, ?_, rfl⟩ <;>
    obtain _ | ⟨a, _ | ⟨b, rest⟩⟩ := casts <;>
    simp [discoverOutcome]

/-- C4 witness: the amended statement at a singleton discovery result. -/
theorem c4_discovery_exits_witness :
    (discoverOutcome ([42] : List ℕ) = DiscoverResult.exited 1 ↔ ([42] : List ℕ).length ≠ 1) ∧
    (discoverOutcome ([42] : List ℕ) = DiscoverResult.proceed 42 ↔ ([42] : List ℕ) = [42]) ∧
    outerPollAction none = OuterAction.statusUnknown :=
  c4_discovery_exits [42] 42

/-- C5 counterexample: a Default Media Receiver status showing content
from a foreign origin is classified eligible by the code, while the
claimed rule (Resumable requires the shown content URL to match this
system serving origin) classifies it busy: the code performs no origin
check. -/
theorem c5_counterexample :
    classifyStatus (some foreignStatus) = Classified.eligible ∧
    classifyStatusSpec "http://192.168.1.10:8080" (some foreignStatus) = Classified.busy :=
  ⟨by decide, by decide⟩

/-- C5 amended: the device is classified busy exactly when `display_name`
is neither "Backdrop" nor "Default Media Receiver" and eligible otherwise;
the classification depends only on `display_name` (no origin check on the
shown content). -/
theorem c5_classification (st : CastStatus) (u : Option String) :
    (classifyStatus (some st) = Classified.busy ↔
      (st.display_name ≠ "Backdrop" ∧ st.display_name ≠ "Default Media Receiver")) ∧
    (classifyStatus (some st) = Classified.eligible ↔
      (st.display_name = "Backdrop" ∨ st.display_name = "Default Media Receiver")) ∧
    classifyStatus (some ⟨st.display_name, u⟩) = classifyStatus (some st) := by
  by_cases h1 : st.display_name = "Backdrop" <;>
    by_cases h2 : st.display_name = "Default Media Receiver" <;>
    simp [classifyStatus, h1, h2]

/-- C5 witness: the amended statement at a busy status. -/
theorem c5_classification_witness :
    (classifyStatus (some ⟨"Netflix", none⟩) = Classified.busy ↔
      (CastStatus.display_name ⟨"Netflix", none⟩ ≠ "Backdrop" ∧
       CastStatus.display_name ⟨"Netflix", none⟩ ≠ "Default Media Receiver")) ∧
    (classifyStatus (some ⟨"Netflix", none⟩) = Classified.eligible ↔
      (CastStatus.display_name ⟨"Netflix", none⟩ = "Backdrop" ∨
       CastStatus.display_name ⟨"Netflix", none⟩ = "Default Media Receiver")) ∧
    classifyStatus (some ⟨CastStatus.display_name ⟨"Netflix", none⟩, some "http://x"⟩) =
      classifyStatus (some ⟨"Netflix", none⟩) :=
  c5_classification ⟨"Netflix", none⟩ (some "http://x")

/-- C8: the staleness check is true exactly when the index age strictly
exceeds the configured interval, false at exactly the boundary, and the
casting-loop iteration swaps in the rebuilt index exactly when the check
fires - the index never changes otherwise, and `get_random_photo` returns
only a photo (it cannot produce a new index). -/
theorem c8_staleness (ttl now : ℚ) (nic : ℕ) (idx rebuilt : PhotoIndexState) :
    (is_outdated ttl idx.time now = true ↔ now - idx.time > ttl) ∧
    (is_outdated ttl idx.time (idx.time + ttl) = false) ∧
    ((castIter ttl now idx rebuilt nic).1 = if now - idx.time > ttl then rebuilt else idx) ∧
    ((castIter ttl now idx rebuilt nic).1 ≠ idx → is_outdated ttl idx.time now = true) := by
  refine ⟨?_, ?_, ?_, ?_⟩
  · simp [is_outdated]
  · simp [is_outdated]
  · simp [castIter, is_outdated]
  · intro h
    by_cases hb : is_outdated ttl idx.time now = true
    · exact hb
    · exact absurd (by simp [castIter, hb]) h

/-- C8 witness: the staleness statement at concrete interval 10, build
time 0, poll time 20. -/
theorem c8_staleness_witness :
    (is_outdated 10 idxD.time 20 = true ↔ 20 - idxD.time > 10) ∧
    (is_outdated 10 idxD.time (idxD.time + 10) = false) ∧
    ((castIter 10 20 idxD idxE 0).1 = if 20 - idxD.time > 10 then idxE else idxD) ∧
    ((castIter 10 20 idxD idxE 0).1 ≠ idxD → is_outdated 10 idxD.time 20 = true) :=
  c8_staleness 10 20 0 idxD idxE

/-- C9: the photo server returns the requested file when the query key
matches the per-process key and aborts with 401 when it does not, and
every URL built by `path_to_url` embeds the key as its `?key=` query
parameter. -/
theorem c9_photo_server (key qk p localIp : String) (port : ℕ) :
    (qk = key → send_photo key qk p = .ok p) ∧
    (qk ≠ key → send_photo key qk p = .error 401) ∧
    pyIn ("?key=" ++ key) (path_to_url localIp port key p) = true := by
  refine ⟨fun h => by simp [send_photo, h], fun h => by simp [send_photo, h], ?_⟩
  have h := containsRun_append_self
    ("http://" ++ localIp ++ ":" ++ toString port ++ "/" ++ p).data ("?key=" ++ key).data
  simpa [pyIn, path_to_url, String.data_append, List.append_assoc] using h

/-- C9 witness: the server behaviour at a matching and a mismatching key,
and the key embedded in a concrete resolver URL. -/
theorem c9_photo_server_witness :
    send_photo "tok" "tok" "2020/a/p.jpg" = .ok "2020/a/p.jpg" ∧
    send_photo "tok" "bad" "2020/a/p.jpg" = .error 401 ∧
    pyIn ("?key=" ++ "tok") (path_to_url "192.168.1.10" 8080 "tok" "2020/a/p.jpg") = true :=
  ⟨(c9_photo_server "tok" "tok" "2020/a/p.jpg" "192.168.1.10" 8080).1 rfl,
   (c9_photo_server "tok" "bad" "2020/a/p.jpg" "192.168.1.10" 8080).2.1 (by decide),
   (c9_photo_server "tok" "tok" "2020/a/p.jpg" "192.168.1.10" 8080).2.2⟩

/-- C2 counterexample: with a single year bucket that is the current year
and elapsed fraction 3/10, the code stores the weight
`int(round(3/10 * 2^0)) = 0`, not the claimed `d^0 * 3/10 = 3/10` (the
decay in the code is the constant 2, inside the claimed range [1.0, 2.0]). -/
theorem c2_counterexample :
    (year_weights_final 1 true q310).map (fun w => (w : ℚ)) ≠
      [(2 : ℚ) ^ (0 : ℕ) * (3 / 10)] ∧ q310 = 3 / 10 := by
  have hq : q310 = 3 / 10 := by
    show (⟨3, 10, by decide, by decide⟩ : ℚ) = 3 / 10
    rw [Rat.mk'_eq_divInt, Rat.divInt_eq_div]
    norm_num
  refine ⟨?_, hq⟩
  have h0 : year_weights_final 1 true q310 = [0] := by decide
  rw [h0]
  have hne : ((0 : ℤ) : ℚ) ≠ (2 : ℚ) ^ (0 : ℕ) * (3 / 10) := by norm_num
  simpa using hne

/-- C2 amended: weights use the fixed decay 2: bucket `i` weighs `2^i` for
`i < n-1`; the last bucket weighs `int(round(fraction * 2^(n-1)))` -
rounded to the nearest integer, ties to even - exactly when the latest
year directory names the current calendar year, and the full `2^(n-1)`
otherwise; the elapsed fraction produced by `year_progress` lies in
`[0, 1)`. -/
theorem c2_year_weights (n i : ℕ) (cur : Bool) (fraction e t : ℚ)
    (hn : 1 ≤ n) (hi : i < n - 1) (he0 : 0 ≤ e) (het : e < t) :
    (year_weights_final n cur fraction)[i]? = some (2 ^ i) ∧
    (year_weights_final n true fraction)[n - 1]? =
      some (pyRoundMul fraction (2 ^ (n - 1))) ∧
    (year_weights_final n false fraction)[n - 1]? = some (2 ^ (n - 1)) ∧
    0 ≤ year_progress e t ∧ year_progress e t < 1 := by
  have ht : 0 < t := lt_of_le_of_lt he0 het
  have hin : i < n := lt_of_lt_of_le hi (Nat.sub_le n 1)
  have hne : n - 1 ≠ i := fun h => absurd hi (h ▸ lt_irrefl i)
  have hlast : n - 1 < n := Nat.sub_lt (lt_of_lt_of_le Nat.zero_lt_one hn) Nat.zero_lt_one
  have hbase : ∀ j, j < n → (initialYearWeights n)[j]? = some (2 ^ j) := by
    intro j hj
    simp [initialYearWeights, List.getElem?_range, hj]
  refine ⟨?_, ?_, ?_, ?_, ?_⟩
  · cases cur with
    | false => simpa [year_weights_final] using hbase i hin
    | true =>
      have h := hbase i hin
      rw [year_weights_final, if_pos rfl, List.getElem?_set_ne hne]
      exact h
  · have hlen : n - 1 < (initialYearWeights n).length := by
      simpa [initialYearWeights] using hlast
    rw [year_weights_final, if_pos rfl]
    exact List.getElem?_set_eq_of_lt _ hlen
  · simpa [year_weights_final] using hbase (n - 1) hlast
  · exact div_nonneg he0 (le_of_lt ht)
  · exact (div_lt_one ht).mpr het

/-- C2 witness: the amended statement at three buckets, current year,
fraction 1/2, elapsed 1 of 2 seconds. -/
theorem c2_year_weights_witness :
    (year_weights_final 3 true (1 / 2))[1]? = some (2 ^ 1) ∧
    (year_weights_final 3 true (1 / 2))[3 - 1]? =
      some (pyRoundMul (1 / 2) (2 ^ (3 - 1))) ∧
    (year_weights_final 3 false (1 / 2))[3 - 1]? = some (2 ^ (3 - 1)) ∧
    0 ≤ year_progress 1 2 ∧ year_progress 1 2 < 1 :=
  c2_year_weights 3 1 true (1 / 2) 1 2 (by norm_num) (by norm_num) (by norm_num) (by norm_num)

/-- C3 counterexample: from a photo root whose 2021 year directory
contains no photos, the built snapshot keeps the empty 2021 bucket in the
bucket list with full weight 2, and a draw landing on it gives that empty
bucket a sampling chance (failing with an IndexError), contradicting the
claim that an empty bucket is absent from both lists. -/
theorem c3_counterexample :
    buildIndex [] rootWithEmptyLatest 2025 0 0 = .ok idxWithEmptyLatest ∧
    idxWithEmptyLatest.year_photos[1]? = some [] ∧
    idxWithEmptyLatest.year_weights[1]? = some 2 ∧
    get_random_photo idxWithEmptyLatest ⟨q34, 0, 0⟩ = .error .indexError :=
  ⟨by decide, by decide, by decide, by decide⟩

/-- C3 amended: the bucket list and the weight list always have equal
length, and every sub-group inside a bucket is nonempty (empty
subdirectory photo lists are dropped); but a year bucket that filters
down to zero sub-groups stays in the bucket list and keeps its weight. -/
theorem c3_empty_subgroups (bl : List String) (root : List FsEntry) (cy : ℕ)
    (fr now : ℚ) (idx : PhotoIndexState)
    (h : buildIndex bl root cy fr now = .ok idx) :
    idx.year_photos.length = idx.year_weights.length ∧
    ∀ y ∈ idx.year_photos, ∀ s ∈ y, s ≠ [] := by
  simp only [buildIndex] at h
  split at h
  · exact absurd h (by simp)
  · injection h with h
    subst h
    constructor
    · simp [length_year_weights_final]
    · intro y hy s hs
      simp only [List.mem_map] at hy
      obtain ⟨e, _, rfl⟩ := hy
      simp only [buildBucket, List.mem_filter] at hs
      intro hcontra
      rw [hcontra] at hs
      simp at hs

/-- C3 witness: the amended statement at the snapshot built from
`rootWithEmptyLatest`. -/
theorem c3_empty_subgroups_witness :
    idxWithEmptyLatest.year_photos.length = idxWithEmptyLatest.year_weights.length ∧
    ∀ y ∈ idxWithEmptyLatest.year_photos, ∀ s ∈ y, s ≠ [] :=
  c3_empty_subgroups [] rootWithEmptyLatest 2025 0 0 idxWithEmptyLatest (by decide)

/-- C6 counterexample: sampling a zero-bucket snapshot raises an
IndexError (`cum_weights[-1]` on an empty list) - there is no `EmptyIndex`
error type in the code - and sampling that draws an empty bucket raises an
IndexError that no caller recovers from: the casting loop issues the same
hardcoded command whatever index it holds, so no resampling happens
anywhere. -/
theorem c6_counterexample :
    get_random_photo ⟨[], [], 1⟩ ⟨q34, 1, 2⟩ = .error .indexError ∧
    get_random_photo idxB ⟨0, 1, 2⟩ = .error .indexError ∧
    (castIter 100 5 idxB idxB 3).2 = castIterPlay 3 ∧
    (castIter 100 5 idxD idxD 3).2 = castIterPlay 3 :=
  ⟨rfl, by decide, rfl, rfl⟩

/-- C6 amended: sampling a snapshot with zero buckets fails with an
IndexError (never silently returning an asset), and sampling that draws a
bucket with no sub-groups also fails with an IndexError; the errors are
plain `IndexError` (no `EmptyIndex` type exists) and no caller catches
them or resamples - the casting loop never invokes the sampler. -/
theorem c6_sampling_failures (t : ℚ) (r : RandPick) (idx : PhotoIndexState) :
    get_random_photo ⟨[], [], t⟩ r = .error .indexError ∧
    (idx.year_weights.length = idx.year_photos.length →
     idx.year_weights ≠ [] →
     0 < idx.year_weights.sum →
     idx.year_photos[rouletteIdx idx.year_weights r.u]? = some [] →
     get_random_photo idx r = .error .indexError) := by
  constructor
  · rfl
  · intro h1 h2 h3 h4
    unfold get_random_photo
    rw [if_neg (by simp [h1]), if_neg (by simp [List.isEmpty_iff, h2]),
      if_neg (by omega), h4]
    rfl

/-- C6 witness: the amended statement at a zero-bucket snapshot and at a
snapshot whose drawn bucket is empty. -/
theorem c6_sampling_failures_witness :
    get_random_photo ⟨[], [], 0⟩ ⟨0, 0, 0⟩ = .error .indexError ∧
    get_random_photo idxB ⟨0, 0, 0⟩ = .error .indexError :=
  ⟨(c6_sampling_failures 0 ⟨0, 0, 0⟩ idxB).1,
   (c6_sampling_failures 0 ⟨0, 0, 0⟩ idxB).2 (by decide) (by decide) (by decide) (by decide)⟩

/-- C7 counterexample: `idxEmptyFirst` is a snapshot with exactly one
non-empty bucket holding exactly one asset (built by the code from
`rootEmptyFirst`), yet sampling it with draw 0 selects the preceding
empty bucket and fails with an IndexError instead of returning that
asset. -/
theorem c7_counterexample :
    buildIndex ["private"] rootEmptyFirst 2025 0 0 = .ok idxEmptyFirst ∧
    get_random_photo idxEmptyFirst ⟨0, 1, 1⟩ = .error .indexError ∧
    get_random_photo idxEmptyFirst ⟨0, 1, 1⟩ ≠ .ok photoC :=
  ⟨by decide, by decide, by decide⟩

/-- C7 amended: the draw is the roulette wheel over the bucket weights and
selection inside a bucket is uniform over sub-groups and photos; when the
snapshot consists of exactly one bucket with one sub-group holding one
asset and that bucket's weight is positive, sampling returns that asset
for every draw in `[0,1)` and every selector pair. -/
theorem c7_single_asset (w : ℤ) (p : Photo) (t u : ℚ) (si pj : ℕ)
    (hw : 0 < w) (_hu0 : 0 ≤ u) (_hu1 : u < 1) :
    get_random_photo ⟨[[[p]]], [w], t⟩ ⟨u, si, pj⟩ = .ok p := by
  unfold get_random_photo
  rw [if_neg (by simp), if_neg (by simp), if_neg (by simp; omega)]
  simp [rouletteIdx, rouletteIdxAux, pyChoice, Except.bind, Nat.mod_one]

/-- C7 witness: the amended statement at weight 1, draw 3/4, selectors 5
and 7. -/
theorem c7_single_asset_witness :
    get_random_photo ⟨[[[photoD]]], [1], 0⟩ ⟨q34, 5, 7⟩ = .ok photoD :=
  c7_single_asset 1 photoD 0 q34 5 7 (by decide) (by decide) (by decide)

/-- C10: an immediate child of the photo root becomes a year entry exactly
when it is a directory whose name is all-numeric and not blacklisted
(case-insensitive substring test); the year entries are sorted
lexicographically by name, the bucket list is their image under
`buildBucket` in that order, and the weight list has one weight per
sorted position. -/
theorem c10_year_entries (bl : List String) (root : List FsEntry) (cy : ℕ)
    (fr now : ℚ) (idx : PhotoIndexState) :
    (∀ e, e ∈ yearEntries bl root ↔
      (e ∈ root ∧ e.isDir = true ∧ isNumericStr e.name = true ∧
       is_not_blacklisted bl e.name = true)) ∧
    List.Sorted nameLe (yearEntries bl root) ∧
    (buildIndex bl root cy fr now = .ok idx →
      idx.year_photos = (yearEntries bl root).map (buildBucket bl) ∧
      idx.year_weights.length = (yearEntries bl root).length) := by
  refine ⟨?_, ?_, ?_⟩
  · intro e
    simp [yearEntries, List.mem_filter, Bool.and_eq_true, and_assoc]
  · exact List.sorted_insertionSort nameLe _
  · intro h
    simp only [buildIndex] at h
    split at h
    · exact absurd h (by simp)
    · injection h with h
      subst h
      exact ⟨rfl, by simp [length_year_weights_final]⟩

/-- C10 witness: the statement at the concrete root `rootWithEmptyLatest`,
with the build hypothesis discharged by evaluation. -/
theorem c10_year_entries_witness :
    idxWithEmptyLatest.year_photos = (yearEntries [] rootWithEmptyLatest).map (buildBucket []) ∧
    idxWithEmptyLatest.year_weights.length = (yearEntries [] rootWithEmptyLatest).length :=
  (c10_year_entries [] rootWithEmptyLatest 2025 0 0 idxWithEmptyLatest).2.2 (by decide)
